import Mathlib

/-!
Verification of `reproduce_lyrics.py`, a diagnostic script that scans a
music-library HTTP service for a track whose synced lyrics contain the
romaji marker substring " / ".

The script is embedded shallowly: the two HTTP endpoints are modelled as
an environment (`Env`) mapping the library request and each lyrics
request to its result, and the script's observable behaviour is the list
of events it produces (stdout lines and HTTP requests, in order) plus a
summary outcome.
-/

/-- A track record from the library listing; the script reads only its
`path` field (line 19 of the source). -/
structure Track where
  path : String
deriving DecidableEq, Repr

/-- A JSON field value as the script distinguishes them: absent from the
object, present but `null`, or a string. -/
inductive JsonField where
  | absent : JsonField
  | null : JsonField
  | str : String → JsonField
deriving DecidableEq, Repr

/-- Result of calling `.json()` on a lyrics response body (line 30):
either the parse raises an exception, or it yields an object with
optional `syncedLyrics` and `plainLyrics` fields. -/
inductive BodyParse where
  | raise : String → BodyParse
  | obj : JsonField → JsonField → BodyParse
deriving DecidableEq, Repr

/-- Result of `requests.get` on a lyrics URL (line 27): either the
request itself raises, or a response arrives with a status code and a
body. The body is only ever parsed when the status is 200. -/
inductive LyricsFetch where
  | raise : String → LyricsFetch
  | resp : Nat → BodyParse → LyricsFetch
deriving DecidableEq, Repr

/-- The external world as the script sees it: the combined result of
fetching and JSON-parsing the library listing (lines 11-12), and for
each track path the result of fetching its lyrics. -/
structure Env where
  library : Except String (List Track)
  lyrics : String → LyricsFetch

/-- Observable events, in program order: a line printed to stdout, or an
HTTP GET issued for a URL. -/
inductive Event where
  | print : String → Event
  | request : String → Event
deriving DecidableEq, Repr

/-- The script's summary outcome: returned after printing a match,
returned after exhausting the scanned tracks without a match, or
returned from the `except` handler after an exception. -/
inductive Outcome where
  | matched : String → String → Outcome
  | noMatch : Outcome
  | error : String → Outcome
deriving DecidableEq, Repr

/-- Line 31-32: `data.get(key, '') or ''` — a missing field gives the
default `''`, a `None` value is falsy so `or ''` turns it into `''`, and
a string value passes through (`'' or ''` is `''`). -/
def fieldToStr : JsonField → String
  | JsonField.absent => ""
  | JsonField.null => ""
  | JsonField.str s => s

/-- Bool test of `a` being the first elements of `b` (char lists). -/
def listPre : List Char → List Char → Bool
  | [], _ => true
  | _ :: _, [] => false
  | a :: as, b :: bs => a = b && listPre as bs

/-- Bool test of `needle` occurring contiguously inside `hay`. -/
def listSub (needle : List Char) : List Char → Bool
  | [] => listPre needle []
  | c :: cs => listPre needle (c :: cs) || listSub needle cs

/-- Python's `needle in hay` substring test on strings (line 34). -/
def hasSub (needle hay : String) : Bool :=
  listSub needle.data hay.data

/-- UTF-8 encoding of one character, as the byte values `quote` escapes
(Python strings are encoded with `encoding='utf-8'` before quoting). -/
def utf8Bytes (c : Char) : List Nat :=
  let n := c.toNat
  if n < 0x80 then [n]
  else if n < 0x800 then [0xC0 + n / 0x40, 0x80 + n % 0x40]
  else if n < 0x10000 then
    [0xE0 + n / 0x1000, 0x80 + n / 0x40 % 0x40, 0x80 + n % 0x40]
  else
    [0xF0 + n / 0x40000, 0x80 + n / 0x1000 % 0x40,
     0x80 + n / 0x40 % 0x40, 0x80 + n % 0x40]

/-- The bytes `urllib.parse.quote` leaves unescaped with `safe=''`:
ASCII letters, digits, and `_` `.` `-` `~`. -/
def isSafeByte (b : Nat) : Bool :=
  (0x41 ≤ b && b ≤ 0x5A) || (0x61 ≤ b && b ≤ 0x7A) ||
  (0x30 ≤ b && b ≤ 0x39) || b = 0x5F || b = 0x2E || b = 0x2D || b = 0x7E

/-- Uppercase hexadecimal digit for a value below 16. -/
def hexDigit (n : Nat) : Char :=
  if n < 10 then Char.ofNat (0x30 + n) else Char.ofNat (0x41 + n - 10)

/-- One byte of `quote` output: the byte itself if safe, else a
percent-escape with two uppercase hex digits. -/
def quoteByte (b : Nat) : String :=
  if isSafeByte b then String.singleton (Char.ofNat b)
  else String.mk ['%', hexDigit (b / 16), hexDigit (b % 16)]

/-- Concatenated quoting of a byte sequence. -/
def quoteBytes : List Nat → String
  | [] => ""
  | b :: bs => quoteByte b ++ quoteBytes bs

/-- Line 24: `urllib.parse.quote(path, safe='')` — UTF-8 encode the
string, then percent-escape every byte outside the always-safe set. -/
def pyQuote (s : String) : String :=
  quoteBytes (s.data.flatMap utf8Bytes)

/-- The library listing URL (line 11). -/
def libraryUrl : String := "http://localhost:5000/api/library"

/-- Line 26: the lyrics lookup URL embeds the quoted path. -/
def lyricsUrl (p : String) : String :=
  "http://localhost:5000/api/lyrics/" ++ pyQuote p

/-- What the loop body decides for one track after its lyrics fetch:
report a match (carrying the synced-lyrics string), print the progress
line and continue, continue silently, or let an exception escape. -/
inductive StepRes where
  | found : String → StepRes
  | progress : StepRes
  | quiet : StepRes
  | raised : String → StepRes
deriving DecidableEq, Repr

/-- Lines 29-41 for one track: a raising fetch propagates; a non-200
response skips the body entirely; a 200 response is parsed (a parse
error propagates), `syncedLyrics` and `plainLyrics` are extracted as
strings, and the `" / "` test picks match / progress / silent fall-through. -/
def trackStep : LyricsFetch → StepRes
  | LyricsFetch.raise msg => StepRes.raised msg
  | LyricsFetch.resp status body =>
    if status = 200 then
      match body with
      | BodyParse.raise msg => StepRes.raised msg
      | BodyParse.obj sf pf =>
        let synced := fieldToStr sf
        let plain := fieldToStr pf
        if hasSub " / " synced then StepRes.found synced
        else if synced ≠ "" then StepRes.progress
        else StepRes.quiet
    else StepRes.quiet

/-- How the loop ends: early `return` on a match (line 39), normal
exhaustion of the slice, or an exception escaping to the handler. -/
inductive LoopResult where
  | matched : String → String → LoopResult
  | exhausted : LoopResult
  | raised : String → LoopResult
deriving DecidableEq, Repr

/-- Lines 18-41: the `for track in tracks[:20]` loop, already applied to
the sliced list. Each iteration prints `Checking: {path}` (line 20),
issues the lyrics GET (line 27), and acts on `trackStep`: a match prints
the four report lines with the 200-character snippet (lines 35-38) and
returns; progress prints its line (line 41) and continues; otherwise the
iteration continues silently. -/
def scanLoop (lyrics : String → LyricsFetch) : List Track → List Event × LoopResult
  | [] => ([], LoopResult.exhausted)
  | t :: rest =>
    let pre := [Event.print ("Checking: " ++ t.path),
                Event.request (lyricsUrl t.path)]
    match trackStep (lyrics t.path) with
    | StepRes.raised msg => (pre, LoopResult.raised msg)
    | StepRes.found synced =>
        (pre ++ [Event.print ("\nFOUND ROMAJI LYRICS for " ++ t.path ++ "!"),
                 Event.print "--- Snippet ---",
                 Event.print (synced.take 200),
                 Event.print "--- End Snippet ---"],
         LoopResult.matched t.path (synced.take 200))
    | StepRes.progress =>
        let r := scanLoop lyrics rest
        (pre ++ Event.print "Found lyrics (no romaji detected yet)" :: r.1, r.2)
    | StepRes.quiet =>
        let r := scanLoop lyrics rest
        (pre ++ r.1, r.2)

/-- Lines 9-45, `search_track_with_lyrics`: fetch and parse the library
(an exception goes to the handler), print the header with the full track
count (line 17), run the loop over the first 20 tracks, and on an
escaping exception print `Error: {e}` at the single outer boundary
(line 45). Nothing is printed when the loop exhausts without a match. -/
def search_track_with_lyrics (env : Env) : List Event × Outcome :=
  match env.library with
  | Except.error msg =>
      ([Event.request libraryUrl, Event.print ("Error: " ++ msg)],
       Outcome.error msg)
  | Except.ok tracks =>
      let header := [Event.request libraryUrl,
                     Event.print ("Checking " ++ toString tracks.length ++ " tracks...")]
      match scanLoop env.lyrics (List.take 20 tracks) with
      | (evs, LoopResult.matched p s) => (header ++ evs, Outcome.matched p s)
      | (evs, LoopResult.exhausted) => (header ++ evs, Outcome.noMatch)
      | (evs, LoopResult.raised msg) =>
          (header ++ evs ++ [Event.print ("Error: " ++ msg)], Outcome.error msg)

/-- Lines 47-48: the `__main__` guard calls the function; since every
exception is caught inside it, the process falls off the end of the
script and exits with status 0 in every outcome. -/
def mainRun (env : Env) : List Event × Nat :=
  ((search_track_with_lyrics env).1, 0)

/-- The URL of a request event, if it is one. -/
def reqOfEvent : Event → Option String
  | Event.request u => some u
  | Event.print _ => none

/-- The line of a print event, if it is one. -/
def lineOfEvent : Event → Option String
  | Event.print s => some s
  | Event.request _ => none

/-- The HTTP requests among a trace's events, in order. -/
def requestsOf (evs : List Event) : List String :=
  evs.filterMap reqOfEvent

/-- The stdout lines among a trace's events, in order. -/
def printsOf (evs : List Event) : List String :=
  evs.filterMap lineOfEvent

/-- A step that lets the loop continue to the next track. -/
def stepContinues : StepRes → Bool
  | StepRes.progress => true
  | StepRes.quiet => true
  | StepRes.found _ => false
  | StepRes.raised _ => false


lemma requestsOf_append (a b : List Event) :
    requestsOf (a ++ b) = requestsOf a ++ requestsOf b := by
  simp [requestsOf]

lemma printsOf_append (a b : List Event) :
    printsOf (a ++ b) = printsOf a ++ printsOf b := by
  simp [printsOf]

/-- C4. For every track whose lyrics fetch returns a response with a
non-200 status, whatever its body (even one whose parse would raise),
the loop skips the track without inspecting the body: its trace is just
the `Checking:` line and the lyrics request, followed verbatim by the
scan of the remaining tracks, with the same final result. -/
theorem non200_skipped_without_parsing (lyrics : String → LyricsFetch)
    (t : Track) (rest : List Track) (status : Nat) (body : BodyParse)
    (h : lyrics t.path = LyricsFetch.resp status body) (hs : status ≠ 200) :
    scanLoop lyrics (t :: rest) =
      (Event.print ("Checking: " ++ t.path) :: Event.request (lyricsUrl t.path) ::
        (scanLoop lyrics rest).1,
       (scanLoop lyrics rest).2) := by
  simp [scanLoop, trackStep, h, hs]

/-- C8. For every track whose 200-status response parses to a
`syncedLyrics` string that is non-empty but lacks the " / " marker, the
loop prints the progress line and continues with the remaining tracks,
with the same final result as scanning them alone. -/
theorem progress_then_continue (lyrics : String → LyricsFetch)
    (t : Track) (rest : List Track) (sf pf : JsonField)
    (h : lyrics t.path = LyricsFetch.resp 200 (BodyParse.obj sf pf))
    (hm : hasSub " / " (fieldToStr sf) = false)
    (hne : fieldToStr sf ≠ "") :
    scanLoop lyrics (t :: rest) =
      (Event.print ("Checking: " ++ t.path) :: Event.request (lyricsUrl t.path) ::
        Event.print "Found lyrics (no romaji detected yet)" ::
        (scanLoop lyrics rest).1,
       (scanLoop lyrics rest).2) := by
  simp [scanLoop, trackStep, h, hm, hne]

/-- C9. For every track whose 200-status response yields an empty
`syncedLyrics` (missing, null, or `""`, i.e. `fieldToStr sf = ""`), the
loop neither reports a match nor prints the found-lyrics progress line
for the track: its trace is only the `Checking:` line and the request,
followed verbatim by the scan of the remaining tracks. -/
theorem empty_synced_silent (lyrics : String → LyricsFetch)
    (t : Track) (rest : List Track) (sf pf : JsonField)
    (h : lyrics t.path = LyricsFetch.resp 200 (BodyParse.obj sf pf))
    (hse : fieldToStr sf = "") :
    scanLoop lyrics (t :: rest) =
      (Event.print ("Checking: " ++ t.path) :: Event.request (lyricsUrl t.path) ::
        (scanLoop lyrics rest).1,
       (scanLoop lyrics rest).2) := by
  have hm : hasSub " / " "" = false := by decide
  simp [scanLoop, trackStep, h, hse, hm]

/-- C7. The extraction of the two lyrics fields (`data.get(key, '') or
''`) maps a missing field and a null field to the empty string and keeps
a string value unchanged; and the loop's handling of a 200-status object
depends on the two fields only through these string images, so all later
inspection operates on strings. -/
theorem fields_extracted_as_strings :
    (fieldToStr JsonField.absent = "" ∧ fieldToStr JsonField.null = "" ∧
      ∀ s, fieldToStr (JsonField.str s) = s) ∧
    ∀ sf pf, trackStep (LyricsFetch.resp 200 (BodyParse.obj sf pf)) =
      trackStep (LyricsFetch.resp 200 (BodyParse.obj
        (JsonField.str (fieldToStr sf)) (JsonField.str (fieldToStr pf)))) := by
  exact ⟨⟨rfl, rfl, fun s => rfl⟩, fun sf pf => rfl⟩


lemma scanLoop_cons_continue (lyrics : String → LyricsFetch) (u : Track)
    (rest : List Track)
    (hu : stepContinues (trackStep (lyrics u.path)) = true) :
    (scanLoop lyrics (u :: rest)).2 = (scanLoop lyrics rest).2 ∧
    requestsOf (scanLoop lyrics (u :: rest)).1 =
      lyricsUrl u.path :: requestsOf (scanLoop lyrics rest).1 ∧
    ∀ e ∈ (scanLoop lyrics rest).1, e ∈ (scanLoop lyrics (u :: rest)).1 := by
  cases hc : trackStep (lyrics u.path) with
  | found s => rw [hc] at hu; simp [stepContinues] at hu
  | raised m => rw [hc] at hu; simp [stepContinues] at hu
  | progress =>
    refine ⟨?_, ?_, ?_⟩ <;> simp [scanLoop, hc, requestsOf, reqOfEvent]
    intro e he
    tauto
  | quiet =>
    refine ⟨?_, ?_, ?_⟩ <;> simp [scanLoop, hc, requestsOf, reqOfEvent]
    intro e he
    tauto

lemma scanLoop_exhausts (lyrics : String → LyricsFetch) (ts : List Track)
    (h : ∀ u ∈ ts, stepContinues (trackStep (lyrics u.path)) = true) :
    (scanLoop lyrics ts).2 = LoopResult.exhausted ∧
    requestsOf (scanLoop lyrics ts).1 = ts.map (fun u => lyricsUrl u.path) := by
  induction ts with
  | nil => simp [scanLoop, requestsOf]
  | cons u rest ih =>
    have hu := h u (List.mem_cons_self u rest)
    have hrest : ∀ v ∈ rest, stepContinues (trackStep (lyrics v.path)) = true :=
      fun v hv => h v (List.mem_cons_of_mem u hv)
    obtain ⟨ih2, ih1⟩ := ih hrest
    obtain ⟨e2, e1, _⟩ := scanLoop_cons_continue lyrics u rest hu
    rw [e2, e1, ih1, ih2, List.map_cons]
    exact ⟨rfl, rfl⟩

lemma scanLoop_firstMatch (lyrics : String → LyricsFetch)
    (pre : List Track) (t : Track) (post : List Track) (synced : String)
    (hpre : ∀ u ∈ pre, stepContinues (trackStep (lyrics u.path)) = true)
    (ht : trackStep (lyrics t.path) = StepRes.found synced) :
    (scanLoop lyrics (pre ++ t :: post)).2 =
      LoopResult.matched t.path (synced.take 200) ∧
    requestsOf (scanLoop lyrics (pre ++ t :: post)).1 =
      (pre ++ [t]).map (fun u => lyricsUrl u.path) ∧
    Event.print (synced.take 200) ∈ (scanLoop lyrics (pre ++ t :: post)).1 := by
  induction pre with
  | nil =>
    simp only [List.nil_append, List.map_cons, List.map_nil]
    simp [scanLoop, ht, requestsOf, reqOfEvent]
  | cons u rest ih =>
    have hu := hpre u (List.mem_cons_self u rest)
    have hrest : ∀ v ∈ rest, stepContinues (trackStep (lyrics v.path)) = true :=
      fun v hv => hpre v (List.mem_cons_of_mem u hv)
    obtain ⟨ih2, ih1, ihm⟩ := ih hrest
    obtain ⟨e2, e1, emem⟩ :=
      scanLoop_cons_continue lyrics u (rest ++ t :: post) hu
    rw [List.cons_append, e2, e1, ih1, ih2, List.cons_append, List.map_cons]
    exact ⟨rfl, rfl, emem _ ihm⟩

/-- Two lyrics-body parses that agree except possibly in the
`plainLyrics` field. -/
def bodyNoPlain : BodyParse → BodyParse → Prop
  | BodyParse.raise m, BodyParse.raise m' => m = m'
  | BodyParse.obj sf _, BodyParse.obj sf' _ => sf = sf'
  | _, _ => False

/-- Two lyrics-fetch results that agree except possibly in the
`plainLyrics` field of a parsed body. -/
def fetchNoPlain : LyricsFetch → LyricsFetch → Prop
  | LyricsFetch.raise m, LyricsFetch.raise m' => m = m'
  | LyricsFetch.resp s b, LyricsFetch.resp s' b' => s = s' ∧ bodyNoPlain b b'
  | _, _ => False

lemma trackStep_noPlain (f f' : LyricsFetch) (h : fetchNoPlain f f') :
    trackStep f = trackStep f' := by
  cases f with
  | raise m =>
    cases f' with
    | raise m' => simp only [fetchNoPlain] at h; rw [h]
    | resp s' b' => simp [fetchNoPlain] at h
  | resp s b =>
    cases f' with
    | raise m' => simp [fetchNoPlain] at h
    | resp s' b' =>
      obtain ⟨hs, hb⟩ := h
      subst hs
      cases b with
      | raise m =>
        cases b' with
        | raise m' => simp only [bodyNoPlain] at hb; rw [hb]
        | obj sf' pf' => simp [bodyNoPlain] at hb
      | obj sf pf =>
        cases b' with
        | raise m' => simp [bodyNoPlain] at hb
        | obj sf' pf' =>
          simp only [bodyNoPlain] at hb
          subst hb
          rfl

lemma scanLoop_noPlain (l l' : String → LyricsFetch)
    (h : ∀ p, fetchNoPlain (l p) (l' p)) (ts : List Track) :
    scanLoop l ts = scanLoop l' ts := by
  induction ts with
  | nil => rfl
  | cons u rest ih =>
    simp only [scanLoop]
    rw [trackStep_noPlain (l u.path) (l' u.path) (h u.path), ih]

/-- C10. The scan is independent of `plainLyrics`: two runs whose
environments differ only in `plainLyrics` values produce identical
traces (same requests, same prints, hence same match, snippet and
stopping point) and identical outcomes. -/
theorem scan_independent_of_plainLyrics (env env' : Env)
    (hlib : env.library = env'.library)
    (h : ∀ p, fetchNoPlain (env.lyrics p) (env'.lyrics p)) :
    search_track_with_lyrics env = search_track_with_lyrics env' := by
  unfold search_track_with_lyrics
  cases hl : env'.library with
  | error m => rw [hlib, hl]
  | ok tracks =>
    rw [hlib, hl]
    dsimp only
    rw [scanLoop_noPlain env.lyrics env'.lyrics h (List.take 20 tracks)]

/-- A character that may appear in `quote` output: unreserved (ASCII
alphanumeric or `-` `.` `_` `~`) or the escape marker `%` (whose two
following hex digits are alphanumeric). No reserved URL character such
as `/` or space qualifies. -/
def escapedChar (c : Char) : Bool :=
  c.isAlphanum || c = '-' || c = '.' || c = '_' || c = '~' || c = '%'

lemma char_toNat_lt (c : Char) : c.toNat < 0x110000 := by
  have h : c.val.toNat.isValidChar := c.valid
  rcases h with h | ⟨h1, h2⟩
  · exact Nat.lt_trans h (by norm_num)
  · exact h2

lemma utf8Bytes_lt (c : Char) : ∀ b ∈ utf8Bytes c, b < 256 := by
  intro b hb
  have hv := char_toNat_lt c
  unfold utf8Bytes at hb
  dsimp only at hb
  split at hb
  · simp at hb; omega
  · split at hb
    · simp at hb; rcases hb with hb | hb <;> omega
    · split at hb
      · simp at hb; rcases hb with hb | hb | hb <;> omega
      · simp at hb; rcases hb with hb | hb | hb | hb <;> omega

set_option maxRecDepth 40000 in
lemma quoteByte_chars : ∀ b, b < 256 →
    ((quoteByte b).data.all escapedChar) = true := by
  decide

lemma quoteBytes_chars (bs : List Nat) (h : ∀ b ∈ bs, b < 256) :
    ∀ c ∈ (quoteBytes bs).data, escapedChar c = true := by
  induction bs with
  | nil => intro c hc; simp [quoteBytes] at hc
  | cons b rest ih =>
    intro c hc
    rw [quoteBytes] at hc
    rw [String.data_append] at hc
    rcases List.mem_append.mp hc with hc | hc
    · exact List.all_eq_true.mp (quoteByte_chars b (h b (List.mem_cons_self b rest))) c hc
    · exact ih (fun x hx => h x (List.mem_cons_of_mem b hx)) c hc

lemma pyQuote_chars (s : String) : ∀ c ∈ (pyQuote s).data, escapedChar c = true := by
  intro c hc
  refine quoteBytes_chars _ ?_ c hc
  intro b hb
  obtain ⟨ch, _, hbch⟩ := List.mem_flatMap.mp hb
  exact utf8Bytes_lt ch b hbch

/-- C6. The track path is percent-encoded before being embedded in the
lyrics URL: `"a/b c.mp3"` encodes to `"a%2Fb%20c.mp3"`; the lyrics URL
is the fixed endpoint followed by the quoted path; every scanned track's
iteration issues exactly that URL; and every character of the quoted
path is unreserved or a percent-escape character, so reserved characters
(`/`, space, ...) never survive unescaped. -/
theorem path_percent_encoded :
    pyQuote "a/b c.mp3" = "a%2Fb%20c.mp3" ∧
    (∀ p, lyricsUrl p = "http://localhost:5000/api/lyrics/" ++ pyQuote p) ∧
    (∀ lyrics t rest,
      Event.request (lyricsUrl t.path) ∈ (scanLoop lyrics (t :: rest)).1) ∧
    (∀ s : String, ∀ c ∈ (pyQuote s).data, escapedChar c = true) := by
  refine ⟨by decide, fun p => rfl, ?_, pyQuote_chars⟩
  intro lyrics t rest
  cases hc : trackStep (lyrics t.path) <;> simp [scanLoop, hc]

/-- C1. If the scanned slice splits as `pre ++ t :: post` where every
track in `pre` is processed without matching (and without raising), and
`t`'s lyrics response has status 200 with a `syncedLyrics` containing
" / ", then the scan reports `t` as the match with snippet
`syncedLyrics.take 200` (the whole string when shorter than 200), prints
that snippet, and issues lyrics requests only for `pre ++ [t]` — none
for any track in `post`. -/
theorem first_match_reported_and_scan_stops (env : Env)
    (tracks pre post : List Track) (t : Track) (sf pf : JsonField)
    (hlib : env.library = Except.ok tracks)
    (hsplit : List.take 20 tracks = pre ++ t :: post)
    (hpre : ∀ u ∈ pre, stepContinues (trackStep (env.lyrics u.path)) = true)
    (ht : env.lyrics t.path = LyricsFetch.resp 200 (BodyParse.obj sf pf))
    (hm : hasSub " / " (fieldToStr sf) = true) :
    (search_track_with_lyrics env).2 =
      Outcome.matched t.path ((fieldToStr sf).take 200) ∧
    requestsOf (search_track_with_lyrics env).1 =
      libraryUrl :: (pre ++ [t]).map (fun u => lyricsUrl u.path) ∧
    Event.print ((fieldToStr sf).take 200) ∈ (search_track_with_lyrics env).1 := by
  have hstep : trackStep (env.lyrics t.path) = StepRes.found (fieldToStr sf) := by
    simp [trackStep, ht, hm]
  obtain ⟨h2, h1, hmem⟩ :=
    scanLoop_firstMatch env.lyrics pre t post (fieldToStr sf) hpre hstep
  rw [← hsplit] at h2 h1 hmem
  unfold search_track_with_lyrics
  rw [hlib]
  dsimp only
  rcases hsl : scanLoop env.lyrics (List.take 20 tracks) with ⟨evs, res⟩
  rw [hsl] at h2 h1 hmem
  dsimp only at h2 h1 hmem
  subst h2
  dsimp only
  refine ⟨rfl, ?_, ?_⟩
  · rw [requestsOf_append, h1]
    rfl
  · exact List.mem_append_right _ hmem

/-- C2. When the library parses to a track list and no scanned track
matches or raises, the scan issues the library request followed by one
lyrics request per track of the first-20 slice, in original order with
no reordering or deduplication; when the library holds more than 20
tracks that is exactly 20 lyrics requests, and no track past the slice
is ever requested. -/
theorem at_most_twenty_lyrics_requests (env : Env) (tracks : List Track)
    (hlib : env.library = Except.ok tracks)
    (h : ∀ u ∈ List.take 20 tracks,
      stepContinues (trackStep (env.lyrics u.path)) = true) :
    requestsOf (search_track_with_lyrics env).1 =
      libraryUrl :: (List.take 20 tracks).map (fun u => lyricsUrl u.path) ∧
    (20 < tracks.length →
      ((List.take 20 tracks).map (fun u => lyricsUrl u.path)).length = 20) := by
  obtain ⟨h2, h1⟩ := scanLoop_exhausts env.lyrics (List.take 20 tracks) h
  unfold search_track_with_lyrics
  rw [hlib]
  dsimp only
  rcases hsl : scanLoop env.lyrics (List.take 20 tracks) with ⟨evs, res⟩
  rw [hsl] at h2 h1
  dsimp only at h2 h1
  subst h2
  dsimp only
  constructor
  · rw [requestsOf_append, h1]
    rfl
  · intro hlen
    rw [List.length_map, List.length_take]
    omega

/-- C3 (amended). When no scanned track matches (and none raises), the
scan completes as an ordinary non-error outcome after the scanned slice
is exhausted — for a 0-track library without issuing any lyrics request —
but it reports nothing: no "no match found" line is printed (the trace
for an empty library is exactly the library request and the header
line). -/
theorem no_match_completes_silently (env : Env) (tracks : List Track)
    (hlib : env.library = Except.ok tracks)
    (h : ∀ u ∈ List.take 20 tracks,
      stepContinues (trackStep (env.lyrics u.path)) = true) :
    (search_track_with_lyrics env).2 = Outcome.noMatch ∧
    requestsOf (search_track_with_lyrics env).1 =
      libraryUrl :: (List.take 20 tracks).map (fun u => lyricsUrl u.path) ∧
    (tracks = [] → (search_track_with_lyrics env).1 =
      [Event.request libraryUrl, Event.print "Checking 0 tracks..."]) := by
  obtain ⟨h2, h1⟩ := scanLoop_exhausts env.lyrics (List.take 20 tracks) h
  unfold search_track_with_lyrics
  rw [hlib]
  dsimp only
  rcases hsl : scanLoop env.lyrics (List.take 20 tracks) with ⟨evs, res⟩
  rw [hsl] at h2 h1
  dsimp only at h2 h1
  subst h2
  dsimp only
  refine ⟨rfl, ?_, ?_⟩
  · rw [requestsOf_append, h1]
    rfl
  · intro hnil
    subst hnil
    have : scanLoop env.lyrics (List.take 20 ([] : List Track)) = ([], LoopResult.exhausted) := rfl
    rw [this] at hsl
    have hevs : evs = [] := by
      have := congrArg Prod.fst hsl
      exact this.symm
    subst hevs
    rfl

/-- C5. For every environment the program terminates normally with exit
code 0 — whether the outcome is a match, no match, or an error — and
whenever an exception escapes to the single outer boundary (outcome
`error msg`), the trace ends with exactly the one line `Error: msg`
appended by that boundary. -/
theorem single_error_boundary_and_exit_zero (env : Env) :
    (mainRun env).2 = 0 ∧
    ∀ msg, (search_track_with_lyrics env).2 = Outcome.error msg →
      ∃ p, (search_track_with_lyrics env).1 =
        p ++ [Event.print ("Error: " ++ msg)] := by
  refine ⟨rfl, ?_⟩
  intro msg hmsg
  unfold search_track_with_lyrics at hmsg ⊢
  cases hlib : env.library with
  | error m =>
    rw [hlib] at hmsg
    dsimp only at hmsg ⊢
    have hm : m = msg := by injection hmsg
    subst hm
    exact ⟨[Event.request libraryUrl], rfl⟩
  | ok tracks =>
    rw [hlib] at hmsg
    dsimp only at hmsg ⊢
    rcases hsl : scanLoop env.lyrics (List.take 20 tracks) with ⟨evs, res⟩
    cases res with
    | matched p s => rw [hsl] at hmsg; simp at hmsg
    | exhausted => rw [hsl] at hmsg; simp at hmsg
    | raised m =>
      rw [hsl] at hmsg
      dsimp only at hmsg ⊢
      have hm : m = msg := by injection hmsg
      subst hm
      exact ⟨[Event.request libraryUrl,
              Event.print ("Checking " ++ toString tracks.length ++ " tracks...")] ++ evs,
             by rw [List.append_assoc]⟩

/-- An environment whose library listing parses to zero tracks. -/
def envEmptyLib : Env :=
  { library := Except.ok []
    lyrics := fun _ => LyricsFetch.resp 404 (BodyParse.raise "unused") }

/-- C3 counterexample. On a 0-track library the scanner prints only the
header line `Checking 0 tracks...` — no line containing "no match" (or
"No match") is ever printed, contradicting the claim that it reports
"no match found"; it issues only the library request and returns
without a match. -/
theorem no_match_message_never_printed :
    printsOf (search_track_with_lyrics envEmptyLib).1 = ["Checking 0 tracks..."] ∧
    requestsOf (search_track_with_lyrics envEmptyLib).1 = [libraryUrl] ∧
    (search_track_with_lyrics envEmptyLib).2 = Outcome.noMatch ∧
    ((printsOf (search_track_with_lyrics envEmptyLib).1).all
      (fun s => !hasSub "no match" s && !hasSub "No match" s)) = true := by
  decide

theorem no_match_completes_silently_witness :
    (search_track_with_lyrics envEmptyLib).2 = Outcome.noMatch ∧
    requestsOf (search_track_with_lyrics envEmptyLib).1 = [libraryUrl] ∧
    (search_track_with_lyrics envEmptyLib).1 =
      [Event.request libraryUrl, Event.print "Checking 0 tracks..."] :=
  have h := no_match_completes_silently envEmptyLib [] rfl (by decide)
  ⟨h.1, h.2.1, h.2.2 rfl⟩

/-- The spec's end-to-end scenario: two tracks, the first with plain
English synced lyrics, the second with romaji-annotated lyrics. -/
def envScenario : Env :=
  { library := Except.ok [Track.mk "x.mp3", Track.mk "y.mp3"]
    lyrics := fun p =>
      if p = "x.mp3" then
        LyricsFetch.resp 200 (BodyParse.obj (JsonField.str "hello world") JsonField.absent)
      else
        LyricsFetch.resp 200
          (BodyParse.obj (JsonField.str "konnichiwa / こんにちは") JsonField.absent) }

theorem first_match_witness :
    (search_track_with_lyrics envScenario).2 =
      Outcome.matched "y.mp3" (String.take "konnichiwa / こんにちは" 200) ∧
    requestsOf (search_track_with_lyrics envScenario).1 =
      libraryUrl ::
        ([Track.mk "x.mp3"] ++ [Track.mk "y.mp3"]).map (fun u => lyricsUrl u.path) ∧
    Event.print (String.take "konnichiwa / こんにちは" 200) ∈
      (search_track_with_lyrics envScenario).1 :=
  first_match_reported_and_scan_stops envScenario
    [Track.mk "x.mp3", Track.mk "y.mp3"] [Track.mk "x.mp3"] [] (Track.mk "y.mp3")
    (JsonField.str "konnichiwa / こんにちは") JsonField.absent
    rfl rfl (by decide) (by decide) (by decide)

/-- Twenty-one distinct tracks, none of whose lyrics match. -/
def tracks21 : List Track :=
  (List.range 21).map (fun i => Track.mk ("t" ++ toString i))

/-- An environment with 21 library tracks and uniform non-matching
lyrics responses. -/
def envManyTracks : Env :=
  { library := Except.ok tracks21
    lyrics := fun _ =>
      LyricsFetch.resp 200 (BodyParse.obj (JsonField.str "la la") JsonField.null) }

theorem at_most_twenty_witness :
    requestsOf (search_track_with_lyrics envManyTracks).1 =
      libraryUrl :: (List.take 20 tracks21).map (fun u => lyricsUrl u.path) ∧
    ((List.take 20 tracks21).map (fun u => lyricsUrl u.path)).length = 20 :=
  ⟨(at_most_twenty_lyrics_requests envManyTracks tracks21 rfl (by decide)).1,
   (at_most_twenty_lyrics_requests envManyTracks tracks21 rfl (by decide)).2 (by decide)⟩

/-- A lyrics endpoint that always answers 404 with an unparseable body. -/
def lyr404 : String → LyricsFetch :=
  fun _ => LyricsFetch.resp 404 (BodyParse.raise "not json")

theorem non200_skipped_witness :
    scanLoop lyr404 [Track.mk "a.mp3"] =
      (Event.print ("Checking: " ++ (Track.mk "a.mp3").path) ::
        Event.request (lyricsUrl (Track.mk "a.mp3").path) ::
        (scanLoop lyr404 []).1,
       (scanLoop lyr404 []).2) :=
  non200_skipped_without_parsing lyr404 (Track.mk "a.mp3") [] 404
    (BodyParse.raise "not json") rfl (by decide)

/-- An environment whose library fetch raises. -/
def envLibErr : Env :=
  { library := Except.error "boom"
    lyrics := fun _ => LyricsFetch.resp 404 (BodyParse.raise "x") }

theorem error_boundary_witness :
    (mainRun envLibErr).2 = 0 ∧
    ∃ p, (search_track_with_lyrics envLibErr).1 =
      p ++ [Event.print ("Error: " ++ "boom")] :=
  have h := single_error_boundary_and_exit_zero envLibErr
  ⟨h.1, h.2 "boom" rfl⟩

/-- A lyrics endpoint used only to exhibit the request URL shape. -/
def lyrNone : String → LyricsFetch :=
  fun _ => LyricsFetch.resp 404 (BodyParse.raise "ignored")

theorem percent_encoding_witness :
    pyQuote "a/b c.mp3" = "a%2Fb%20c.mp3" ∧
    lyricsUrl "a b" = "http://localhost:5000/api/lyrics/" ++ pyQuote "a b" ∧
    Event.request (lyricsUrl (Track.mk "x.mp3").path) ∈
      (scanLoop lyrNone [Track.mk "x.mp3"]).1 ∧
    escapedChar '%' = true :=
  ⟨path_percent_encoded.1, path_percent_encoded.2.1 "a b",
   path_percent_encoded.2.2.1 lyrNone (Track.mk "x.mp3") [],
   path_percent_encoded.2.2.2 "a/b" '%' (by decide)⟩

/-- A lyrics endpoint whose synced lyrics are non-empty but carry no
romaji marker. -/
def lyrPlainText : String → LyricsFetch :=
  fun _ => LyricsFetch.resp 200
    (BodyParse.obj (JsonField.str "some lyrics line") JsonField.null)

theorem progress_witness :
    scanLoop lyrPlainText [Track.mk "b.mp3"] =
      (Event.print ("Checking: " ++ (Track.mk "b.mp3").path) ::
        Event.request (lyricsUrl (Track.mk "b.mp3").path) ::
        Event.print "Found lyrics (no romaji detected yet)" ::
        (scanLoop lyrPlainText []).1,
       (scanLoop lyrPlainText []).2) :=
  progress_then_continue lyrPlainText (Track.mk "b.mp3") []
    (JsonField.str "some lyrics line") JsonField.null rfl (by decide) (by decide)

/-- A lyrics endpoint whose 200 response has `syncedLyrics: null`. -/
def lyrNullSynced : String → LyricsFetch :=
  fun _ => LyricsFetch.resp 200
    (BodyParse.obj JsonField.null (JsonField.str "plain text here"))

theorem empty_synced_witness :
    scanLoop lyrNullSynced [Track.mk "c.mp3"] =
      (Event.print ("Checking: " ++ (Track.mk "c.mp3").path) ::
        Event.request (lyricsUrl (Track.mk "c.mp3").path) ::
        (scanLoop lyrNullSynced []).1,
       (scanLoop lyrNullSynced []).2) :=
  empty_synced_silent lyrNullSynced (Track.mk "c.mp3") [] JsonField.null
    (JsonField.str "plain text here") rfl rfl

/-- One-track environment whose lyrics response carries one value of
`plainLyrics`. -/
def envPlainOne : Env :=
  { library := Except.ok [Track.mk "d.mp3"]
    lyrics := fun _ => LyricsFetch.resp 200
      (BodyParse.obj (JsonField.str "same synced") (JsonField.str "plain version one")) }

/-- The same environment with a different `plainLyrics` value. -/
def envPlainTwo : Env :=
  { library := Except.ok [Track.mk "d.mp3"]
    lyrics := fun _ => LyricsFetch.resp 200
      (BodyParse.obj (JsonField.str "same synced") (JsonField.str "plain version two")) }

theorem plain_independent_witness :
    search_track_with_lyrics envPlainOne = search_track_with_lyrics envPlainTwo :=
  scan_independent_of_plainLyrics envPlainOne envPlainTwo rfl
    (fun _ => ⟨rfl, rfl⟩)
